import Mathlib

/-!
Verification of the StarryNet real-time monitor and Doppler calculator.

This file gives a shallow embedding of the repository's core logic:

* `doppler_calculator.py` — Doppler shift from radial velocity, the
  degenerate-distance guard in `calculate_radial_velocity`, and the
  display formatter `format_doppler_shift`;
* `d2c_extension/rt_monitor.py` — IP address decoding
  (`ip_to_node_index`), access-satellite resolution
  (`get_gs_access_sat_from_route`), RTT sampling (`measure_rtt`),
  emulation-time derivation (`get_emulation_time`), the GS-to-GS
  measurement cycle of `log_rtt`, and the `start`/`stop` session
  lifecycle;
* `d2c_extension/rt_parser.py` — `parse_ping_output`;
* `starrynet/sn_orchestrater.py` — the GSL/ISL address encoders used by
  `sn_establish_GSL` and `sn_ISL_establish`.

External effects (ping, traceroute, ssh, file writes, the wall clock)
are modelled as explicit inputs; machine floats are modelled as `ℝ`
(where square roots occur) or `ℚ` (where the code is plain arithmetic).
-/

/-! ## Doppler calculator (`doppler_calculator.py`)

Positions and velocities are 3-vectors of reals; the Python code uses
numpy arrays of floats. -/

/-- Physical constant `DopplerCalculator.SPEED_OF_LIGHT` (m/s). -/
def SPEED_OF_LIGHT : ℝ := 299792458.0

/-- Default carrier frequency `DopplerCalculator.DEFAULT_CARRIER_FREQ_HZ`
(14 GHz, Ku band). -/
def DEFAULT_CARRIER_FREQ_HZ : ℝ := 14.0e9

/-- The constructor logic `self.carrier_freq = carrier_frequency_hz or
self.DEFAULT_CARRIER_FREQ_HZ`: Python `or` replaces a falsy argument
(`None` or `0`) by the default, and keeps any other value, including a
negative one. -/
noncomputable def dopplerCarrierFreq (carrier_frequency_hz : Option ℝ) : ℝ :=
  match carrier_frequency_hz with
  | none => DEFAULT_CARRIER_FREQ_HZ
  | some f => if f = 0 then DEFAULT_CARRIER_FREQ_HZ else f

/-- `DopplerCalculator.calculate_doppler_shift`: the Doppler shift
`-(radial_velocity_m_s / SPEED_OF_LIGHT) * carrier_freq` in Hz, where
`carrier_freq` is the instance field configured at construction. -/
noncomputable def calculate_doppler_shift (carrier_freq radial_velocity_m_s : ℝ) : ℝ :=
  -(radial_velocity_m_s / SPEED_OF_LIGHT) * carrier_freq

/-- Cartesian 3-vector, the embedding of a numpy array `[x, y, z]`. -/
abbrev Vec3 := ℝ × ℝ × ℝ

/-- Componentwise difference `np.array(a) - np.array(b)`. -/
def sub3 (a b : Vec3) : Vec3 := (a.1 - b.1, a.2.1 - b.2.1, a.2.2 - b.2.2)

/-- Dot product `np.dot(a, b)`. -/
def dot3 (a b : Vec3) : ℝ := a.1 * b.1 + a.2.1 * b.2.1 + a.2.2 * b.2.2

/-- Scalar multiple of a vector (`c * v`, i.e. `v / d` with `c = 1/d`). -/
def smul3 (c : ℝ) (a : Vec3) : Vec3 := (c * a.1, c * a.2.1, c * a.2.2)

/-- Euclidean norm `np.linalg.norm`. -/
noncomputable def norm3 (a : Vec3) : ℝ := Real.sqrt (dot3 a a)

/-- `DopplerCalculator.calculate_radial_velocity`: the line-of-sight
component of the satellite velocity, in m/s.  The relative position is
`sat - gs`; if its norm is below the `1e-6` floor the function returns
`0.0` without ever forming the line-of-sight unit vector, otherwise it
projects the velocity (converted to m/s) on the unit vector. -/
noncomputable def calculate_radial_velocity
    (sat_position_km sat_velocity_km_s gs_position_km : Vec3) : ℝ :=
  let rel_pos := sub3 sat_position_km gs_position_km
  let distance := norm3 rel_pos
  if distance < 1e-6 then 0.0
  else
    let los_unit := smul3 (1 / distance) rel_pos
    let sat_velocity_m_s := smul3 1000.0 sat_velocity_km_s
    dot3 sat_velocity_m_s los_unit

/-! ## Display formatting (`format_doppler_shift`)

`f"{v:.3f}"` formatting is embedded over `ℚ`: the value is rounded to
three decimals with round-half-to-even (Python's float formatting
rounding mode) and rendered with a fixed three-digit fraction. -/

/-- Decimal digit character. -/
def digitChar : ℕ → Char
  | 0 => '0' | 1 => '1' | 2 => '2' | 3 => '3' | 4 => '4'
  | 5 => '5' | 6 => '6' | 7 => '7' | 8 => '8' | _ => '9'

/-- Fuel-indexed digit expansion of a natural number (most significant
digit first); `fuel ≥ 1 + log10 n` suffices. -/
def natReprAux : ℕ → ℕ → List Char
  | 0, _ => []
  | fuel + 1, n => if n = 0 then [] else natReprAux fuel (n / 10) ++ [digitChar (n % 10)]

/-- Decimal rendering of a natural number, as produced by `str`. -/
def natRepr (n : ℕ) : String := if n = 0 then "0" else String.mk (natReprAux (n + 1) n)

/-- Zero-padded three-digit rendering of a fraction part below 1000. -/
def fracPad3 (n : ℕ) : String :=
  (if n < 10 then "00" else if n < 100 then "0" else "") ++ natRepr n

/-- Round to the nearest integer, ties to even — the rounding applied by
Python's fixed-point float formatting. -/
def pyRoundHalfEven (q : ℚ) : ℤ :=
  let f : ℤ := ⌊q⌋
  let r : ℚ := q - f
  if r < 1 / 2 then f
  else if 1 / 2 < r then f + 1
  else if f % 2 = 0 then f else f + 1

/-- Python `f"{q:.3f}"`: sign, integer part, and exactly three fraction
digits obtained by rounding `|q| * 1000` half-to-even. -/
def fmt3 (q : ℚ) : String :=
  let n : ℤ := pyRoundHalfEven (|q| * 1000)
  let sign : String := if q < 0 then "-" else ""
  sign ++ natRepr (n / 1000).toNat ++ "." ++ fracPad3 (n % 1000).toNat

/-- `format_doppler_shift` from `doppler_calculator.py`: unit selection
by magnitude (`abs(doppler_hz) >= 1e6` gives MHz, `>= 1e3` gives kHz,
otherwise Hz), the value scaled by the chosen unit and printed with
three decimals.  The thresholds `1e6` and `1e3` are written as plain
integer literals, the same rational values. -/
def format_doppler_shift (doppler_hz : ℚ) : String :=
  if 1000000 ≤ |doppler_hz| then fmt3 (doppler_hz / 1000000) ++ " MHz"
  else if 1000 ≤ |doppler_hz| then fmt3 (doppler_hz / 1000) ++ " kHz"
  else fmt3 doppler_hz ++ " Hz"

/-! ## Addressing scheme

`RTMonitor.ip_to_node_index` from `d2c_extension/rt_monitor.py` decodes
a dotted-quad IP into a node index.  The embedding takes the four
already-parsed octets (the Python function splits the string on `.` and
applies `int`); octets are naturals, node indices are integers because
Python's `(isl_idx - 1) // 2` is a floor division on signed integers
(for `isl_idx = 0` it yields `-1`). -/

/-- A dotted-quad address as its four parsed octets. -/
abbrev IPv4 := ℕ × ℕ × ℕ × ℕ

/-- `RTMonitor.ip_to_node_index`: GSL addresses `9.x.y.50` decode to the
satellite `y`, `9.x.y.60` to the ground station `x + constellation_size`;
ISL addresses `10.x.y.z` decode the link index `(x << 8) | y` to its
owning satellite `(isl_idx - 1) // 2 + 1` when that is within the
constellation; everything else decodes to `None`. -/
def ip_to_node_index (constellation_size : ℤ) (ip : IPv4) : Option ℤ :=
  let first_octet := ip.1
  let second_octet := ip.2.1
  let third_octet := ip.2.2.1
  let fourth_octet := ip.2.2.2
  if first_octet = 9 then
    if fourth_octet = 50 then some (third_octet : ℤ)
    else if fourth_octet = 60 then some ((second_octet : ℤ) + constellation_size)
    else none
  else if first_octet = 10 then
    let isl_idx : ℤ := ((second_octet <<< 8) ||| third_octet : ℕ)
    let satellite_id : ℤ := (isl_idx - 1).fdiv 2 + 1
    if satellite_id ≤ constellation_size then some satellite_id else none
  else none

/-- Satellite-side GSL address built by `sn_establish_GSL` in
`starrynet/sn_orchestrater.py` for satellite `i` and ground station `j`:
`9.{(j - constellation_size) & 0xff}.{i & 0xff}.50`. -/
def gsl_sat_ip (constellation_size i j : ℕ) : IPv4 :=
  (9, (j - constellation_size) &&& 0xff, i &&& 0xff, 50)

/-- Ground-side GSL address built by `sn_establish_GSL`:
`9.{(j - constellation_size) & 0xff}.{i & 0xff}.60`. -/
def gsl_gs_ip (constellation_size i j : ℕ) : IPv4 :=
  (9, (j - constellation_size) &&& 0xff, i &&& 0xff, 60)

/-- Intra-orbit ISL address of the link owned by the satellite with
global index `s` (1-based), from `sn_ISL_establish`: the link index is
`current_id * 2 + 1` with `current_id = s - 1`, split into octets as
`10.{isl_idx >> 8}.{isl_idx & 0xff}.40`. -/
def isl_intra_ip (s : ℕ) : IPv4 :=
  let isl_idx := (s - 1) * 2 + 1
  (10, isl_idx >>> 8, isl_idx &&& 0xff, 40)

/-- Inter-orbit ISL address of the link owned by satellite `s`, from
`sn_ISL_establish`: the link index is one past the intra-orbit one. -/
def isl_inter_ip (s : ℕ) : IPv4 :=
  let isl_idx := (s - 1) * 2 + 1 + 1
  (10, isl_idx >>> 8, isl_idx &&& 0xff, 30)

/-! ## Access-satellite resolution
(`RTMonitor.get_gs_access_sat_from_route`)

The traceroute output is modelled as the list of hop addresses it
yields (`None` when the trace failed; `traceroute_path` never returns
an empty list, it maps it to `None`). -/

/-- The scan loop of `get_gs_access_sat_from_route`: the first hop whose
decoded node index is truthy (non-`None` and nonzero) and at most
`constellation_size`. -/
def find_access_sat (constellation_size : ℤ) : List IPv4 → Option ℤ
  | [] => none
  | ip :: rest =>
    match ip_to_node_index constellation_size ip with
    | some node_idx =>
      if node_idx ≠ 0 ∧ node_idx ≤ constellation_size then some node_idx
      else find_access_sat constellation_size rest
    | none => find_access_sat constellation_size rest

/-- `RTMonitor.get_gs_access_sat_from_route`: `(None, None)` when the
trace failed or yielded fewer than two hops; otherwise the first access
satellite among the first three hops and, scanning the last three hops
in reverse, the destination access satellite. -/
def get_gs_access_sat_from_route (constellation_size : ℤ)
    (path_ips : Option (List IPv4)) : Option ℤ × Option ℤ :=
  match path_ips with
  | none => (none, none)
  | some l =>
    if l.length < 2 then (none, none)
    else (find_access_sat constellation_size (l.take 3),
          find_access_sat constellation_size ((l.drop (l.length - 3)).reverse))

/-- Specification-side reading of one hop: the satellite index a hop
decodes to, i.e. `some n` exactly when `ip_to_node_index` yields an
index in `[1, constellation_size]`. -/
def satIndexOf (constellation_size : ℤ) (ip : IPv4) : Option ℤ :=
  match ip_to_node_index constellation_size ip with
  | some n => if 1 ≤ n ∧ n ≤ constellation_size then some n else none
  | none => none

/-! ## Ping output parsing (`rt_parser.py`) and RTT sampling

`RTParser.parse_ping_output` searches the output for the regex
`time=([\d.]+)\s*ms` and converts the first captured group with
`float`.  The regex search is embedded as a leftmost scan: at each
position try to match `time=`, then a maximal nonempty run of digits
and dots, then a maximal run of whitespace, then `ms` (backtracking
cannot produce any other match because a digit or dot is neither
whitespace nor `m`).  A captured group that `float` rejects (no digit,
or more than one dot) makes the Python `float` call raise; the
exception is caught by `measure_rtt`, so at this level it is modelled
as `None` as well. -/

/-- Characters matched by the `[\d.]` class. -/
def isFloatChar (c : Char) : Bool := c.isDigit || c == '.'

/-- ASCII characters matched by `\s`. -/
def isPySpace (c : Char) : Bool :=
  c == ' ' || c == '\t' || c == '\n' || c == '\r' || c == '\x0b' || c == '\x0c'

/-- The literal `time=` preceding the captured group. -/
def timeKey : List Char := ['t', 'i', 'm', 'e', '=']

/-- Attempt the regex `time=([\d.]+)\s*ms` at the head of `l`,
returning the captured group. -/
def tryMatchAt (l : List Char) : Option (List Char) :=
  if timeKey.isPrefixOf l then
    let rest := l.drop 5
    let digits := rest.takeWhile isFloatChar
    if digits = [] then none
    else
      let after := (rest.drop digits.length).dropWhile isPySpace
      if (['m', 's'] : List Char).isPrefixOf after then some digits else none
  else none

/-- Leftmost match of the regex over the whole output (`re.search`). -/
def searchTime : List Char → Option (List Char)
  | [] => none
  | c :: rest =>
    match tryMatchAt (c :: rest) with
    | some g => some g
    | none => searchTime rest

/-- Value of a string of decimal digits. -/
def digitsVal (l : List Char) : ℕ := l.foldl (fun a c => 10 * a + (c.toNat - 48)) 0

/-- Python `float` applied to a string of digits and dots: defined (and
equal to the denoted decimal) when the string has at least one digit
and at most one dot, an error (`none`) otherwise. -/
def pyFloat (s : List Char) : Option ℚ :=
  if s.any Char.isDigit ∧ s.countP (fun c => c == '.') ≤ 1 then
    let ipart := s.takeWhile (fun c => !(c == '.'))
    let fpart := (s.dropWhile (fun c => !(c == '.'))).drop 1
    some ((digitsVal ipart : ℚ) + (digitsVal fpart : ℚ) / (10 : ℚ) ^ fpart.length)
  else none

/-- `RTParser.parse_ping_output`: the first captured round-trip time in
the ping output, converted to a number. -/
def parse_ping_output (output : String) : Option ℚ :=
  match searchTime output.toList with
  | some g => pyFloat g
  | none => none

/-- `RTMonitor.measure_rtt`.  External effects are inputs: `ip_list` is
the result of `self.sn.get_IP(node2_index)` (`none` when that call
raised), and `ping_output` is the text produced by the ping command
(`none` when executing it raised).  The function returns `None` on an
empty or missing address list, on probe failure, and on unparseable
output, and otherwise the first parsed round-trip time. -/
def measure_rtt (ip_list : Option (List String)) (ping_output : Option String) :
    Option ℚ :=
  match ip_list with
  | none => none
  | some [] => none
  | some (_ :: _) =>
    match ping_output with
    | none => none
    | some out => parse_ping_output out

/-! ## Emulation time (`RTMonitor.get_emulation_time`)

Identical in `rt_monitor.py` and `d2c_extension/rt_monitor.py`.  The
wall clock is an input; `int()` truncates toward zero. -/

/-- Python `int()` on a float: truncation toward zero. -/
def pyIntTrunc (q : ℚ) : ℤ := if 0 ≤ q then ⌊q⌋ else -⌊-q⌋

/-- `RTMonitor.get_emulation_time`: `0` before any session start,
otherwise `int(time.time() - self.start_wall_time) + 2`. -/
def get_emulation_time (start_wall_time : Option ℚ) (now : ℚ) : ℤ :=
  match start_wall_time with
  | none => 0
  | some t0 => pyIntTrunc (now - t0) + 2

/-! ## Session lifecycle (`RTMonitor.start` / `RTMonitor.stop`)

The mutable state of the monitor and the externally visible effects of
the two lifecycle methods.  `threads_launched` counts
`threading.Thread(...).start()` calls; `warned` records the
"Monitor is already running!" / "Monitor is not running!" messages. -/

/-- A monitored node pair `(node1_index, node2_index, node1_type,
node2_type)`. -/
abbrev PairKey := ℕ × ℕ × String × String

/-- The session-relevant mutable fields of `RTMonitor`. -/
structure SessionState where
  running : Bool
  start_wall_time : Option ℚ
  log_files_dict : List (PairKey × String)
  threads_launched : ℕ
deriving DecidableEq

/-- State and effects produced by one call to `start`. -/
structure StartResult where
  state : SessionState
  warned : Bool
  launched : Bool
deriving DecidableEq

/-- The default monitoring pairs built by `start` when none are given. -/
def default_node_pairs (constellation_size : ℕ) : List PairKey :=
  [(1, 2, "sat", "sat"),
   (1, constellation_size + 1, "sat", "gs"),
   (constellation_size + 1, constellation_size + 2, "gs", "gs")]

/-- Log file name `rt_log_{timestamp}_{t1}-{i1}_{t2}-{i2}.txt`. -/
def log_filename (timestamp : String) (p : PairKey) : String :=
  "rt_log_" ++ timestamp ++ "_" ++ p.2.2.1 ++ "-" ++ natRepr p.1 ++ "_" ++
    p.2.2.2 ++ "-" ++ natRepr p.2.1 ++ ".txt"

/-- Python dict assignment `d[k] = v` on an insertion-ordered
association list. -/
def dict_insert (d : List (PairKey × String)) (k : PairKey) (v : String) :
    List (PairKey × String) :=
  if d.any (fun e => e.1 == k) then d.map (fun e => if e.1 == k then (k, v) else e)
  else d ++ [(k, v)]

/-- `RTMonitor.start`: a warning no-op when already running; otherwise
creates one log file per pair, records the session start wall time,
sets the running flag and launches exactly one background thread. -/
def monitor_start (s : SessionState) (now : ℚ) (constellation_size : ℕ)
    (node_pairs : Option (List PairKey)) (timestamp log_dir : String) : StartResult :=
  if s.running then { state := s, warned := true, launched := false }
  else
    let pairs := match node_pairs with
      | none => default_node_pairs constellation_size
      | some ps => ps
    let dict := pairs.foldl
      (fun d p => dict_insert d p (log_dir ++ "/" ++ log_filename timestamp p))
      s.log_files_dict
    { state := { running := true, start_wall_time := some now,
                 log_files_dict := dict,
                 threads_launched := s.threads_launched + 1 },
      warned := false, launched := true }

/-- `RTMonitor.stop`: a warning no-op when not running; otherwise
clears the running flag (then joins the thread and writes the stop
markers, neither of which touches the fields modelled here). -/
def monitor_stop (s : SessionState) : SessionState × Bool :=
  if !s.running then (s, true)
  else ({ s with running := false }, false)

/-! ## The GS-to-GS measurement cycle (`RTMonitor.log_rtt`)

The ground-to-ground branch of `log_rtt`: resolve access satellites,
measure the three segments (each only when its endpoints were
resolved), and aggregate the total only when all three succeeded.  The
RTT sampler is an oracle argument `measure`. -/

/-- Values produced by one ground-to-ground cycle. -/
structure GsGsCycle where
  src_sat : Option ℤ
  dst_sat : Option ℤ
  gs_sat_rtt : Option ℚ
  sat_gs_rtt : Option ℚ
  sat_sat_rtt : Option ℚ
  total_rtt : Option ℚ
deriving DecidableEq

/-- The GS-to-GS branch of `RTMonitor.log_rtt`. -/
def log_rtt_gs_gs (constellation_size : ℤ) (path_ips : Option (List IPv4))
    (measure : ℤ → ℤ → Option ℚ) (node1_index node2_index : ℤ) : GsGsCycle :=
  let sats := get_gs_access_sat_from_route constellation_size path_ips
  let src_sat := sats.1
  let dst_sat := sats.2
  let gs_sat_rtt := match src_sat with
    | some s => measure node1_index s
    | none => none
  let sat_gs_rtt := match dst_sat with
    | some d => measure node2_index d
    | none => none
  let sat_sat_rtt := match src_sat, dst_sat with
    | some s, some d => measure s d
    | _, _ => none
  let total_rtt := match gs_sat_rtt, sat_gs_rtt, sat_sat_rtt with
    | some a, some b, some c => some (a + b + c)
    | _, _, _ => none
  ⟨src_sat, dst_sat, gs_sat_rtt, sat_gs_rtt, sat_sat_rtt, total_rtt⟩

/-! ## Helper lemmas -/

theorem fmt3_of_nonneg_round (q : ℚ) (n : ℤ) (h0 : 0 ≤ q)
    (hr : pyRoundHalfEven (q * 1000) = n) :
    fmt3 q = natRepr (n / 1000).toNat ++ "." ++ fracPad3 (n % 1000).toNat := by
  unfold fmt3
  rw [abs_of_nonneg h0, hr, if_neg (not_lt.mpr h0)]
  simp

theorem pyRoundHalfEven_up (q : ℚ) (f : ℤ) (h1 : ⌊q⌋ = f) (h2 : 1 / 2 < q - f) :
    pyRoundHalfEven q = f + 1 := by
  unfold pyRoundHalfEven
  rw [h1, if_neg (by linarith), if_pos h2]

theorem pyRoundHalfEven_intCast (n : ℤ) : pyRoundHalfEven (n : ℚ) = n := by
  unfold pyRoundHalfEven
  rw [Int.floor_intCast, if_pos (by norm_num)]

theorem total_rtt_of_segments (cs : ℤ) (path : Option (List IPv4))
    (measure : ℤ → ℤ → Option ℚ) (n1 n2 : ℤ) :
    (log_rtt_gs_gs cs path measure n1 n2).total_rtt =
      match (log_rtt_gs_gs cs path measure n1 n2).gs_sat_rtt,
            (log_rtt_gs_gs cs path measure n1 n2).sat_gs_rtt,
            (log_rtt_gs_gs cs path measure n1 n2).sat_sat_rtt with
      | some a, some b, some c => some (a + b + c)
      | _, _, _ => none := rfl

/-- Claim C1: in a ground-to-ground measurement cycle the aggregate RTT
is present and equal to the sum of the uplink (GS-Sat), downlink
(Sat-GS) and inter-satellite segment RTTs if and only if all three
segments are present; if any segment is absent the aggregate is absent. -/
theorem gs_gs_total_rtt_iff (cs : ℤ) (path : Option (List IPv4))
    (measure : ℤ → ℤ → Option ℚ) (n1 n2 : ℤ) (t : ℚ) :
    ((log_rtt_gs_gs cs path measure n1 n2).total_rtt = some t ↔
      ∃ a b c, (log_rtt_gs_gs cs path measure n1 n2).gs_sat_rtt = some a ∧
        (log_rtt_gs_gs cs path measure n1 n2).sat_gs_rtt = some b ∧
        (log_rtt_gs_gs cs path measure n1 n2).sat_sat_rtt = some c ∧
        t = a + b + c) ∧
    (((log_rtt_gs_gs cs path measure n1 n2).gs_sat_rtt = none ∨
      (log_rtt_gs_gs cs path measure n1 n2).sat_gs_rtt = none ∨
      (log_rtt_gs_gs cs path measure n1 n2).sat_sat_rtt = none) →
      (log_rtt_gs_gs cs path measure n1 n2).total_rtt = none) := by
  have hdef := total_rtt_of_segments cs path measure n1 n2
  rcases h1 : (log_rtt_gs_gs cs path measure n1 n2).gs_sat_rtt with _ | a <;>
    rcases h2 : (log_rtt_gs_gs cs path measure n1 n2).sat_gs_rtt with _ | b <;>
      rcases h3 : (log_rtt_gs_gs cs path measure n1 n2).sat_sat_rtt with _ | c <;>
        rw [h1, h2, h3] at hdef <;> rw [hdef] <;> simp [eq_comm]

/-- Concrete witness for C1: a cycle in which the downlink and
inter-satellite segments fail, so the aggregate is absent even though
the uplink segment succeeded. -/
theorem gs_gs_total_rtt_iff_witness :
    (log_rtt_gs_gs 4 (some [(9, 1, 1, 50), (9, 1, 2, 60)])
      (fun a b => if a = 5 ∧ b = 1 then some 10 else none) 5 6).total_rtt = none :=
  (gs_gs_total_rtt_iff 4 (some [(9, 1, 1, 50), (9, 1, 2, 60)])
    (fun a b => if a = 5 ∧ b = 1 then some 10 else none) 5 6 0).2
    (Or.inr (Or.inl (by decide)))

/-- Claim C7: while a session is running (start wall time recorded at
`t0`), after a non-negative elapsed wall-clock time the emulation time
is `floor(elapsed) + 2`. -/
theorem emulation_time_formula (t0 elapsed : ℚ) (h : 0 ≤ elapsed) :
    get_emulation_time (some t0) (t0 + elapsed) = ⌊elapsed⌋ + 2 := by
  show pyIntTrunc (t0 + elapsed - t0) + 2 = ⌊elapsed⌋ + 2
  unfold pyIntTrunc
  rw [show t0 + elapsed - t0 = elapsed by ring, if_pos h]

/-- Concrete witness for C7: 3.5 seconds into the session the emulation
time is 5. -/
theorem emulation_time_formula_witness :
    get_emulation_time (some 0) (0 + 7 / 2) = 5 :=
  (emulation_time_formula 0 (7 / 2) (by norm_num)).trans
    (by rw [show ⌊(7 / 2 : ℚ)⌋ = 3 by rw [Int.floor_eq_iff]; norm_num]; decide)

/-- Claim C10: before any session start (no start wall time recorded)
the emulation time is `0` for every current wall-clock reading; the
`floor(elapsed) + 2` formula is not applied. -/
theorem emulation_time_before_start (now : ℚ) :
    get_emulation_time none now = 0 := rfl

/-! ## Claim C2: address decoding round-trip -/

theorem isl_octet_recombine (n : ℕ) : ((n >>> 8) <<< 8) ||| (n &&& 0xff) = n := by
  apply Nat.eq_of_testBit_eq
  intro i
  have h255 : (0xff : ℕ) = 2 ^ 8 - 1 := by norm_num
  rcases Nat.lt_or_ge i 8 with h | h
  · rw [Nat.testBit_or, Nat.testBit_shiftLeft, Nat.testBit_and, h255,
      Nat.testBit_two_pow_sub_one]
    simp [Nat.not_le.mpr h, h]
  · rw [Nat.testBit_or, Nat.testBit_shiftLeft, Nat.testBit_shiftRight,
      Nat.testBit_and, h255, Nat.testBit_two_pow_sub_one]
    have hi : 8 + (i - 8) = i := by omega
    simp [h, hi, Nat.not_lt.mpr h]

theorem ip_to_node_index_isl (cs : ℤ) (o2 o3 o4 : ℕ) :
    ip_to_node_index cs (10, o2, o3, o4) =
      (if ((((o2 <<< 8) ||| o3 : ℕ) : ℤ) - 1).fdiv 2 + 1 ≤ cs
        then some (((((o2 <<< 8) ||| o3 : ℕ) : ℤ) - 1).fdiv 2 + 1) else none) := rfl

/-- The claim as frozen is false: the GSL encoder masks both variable
octets with `& 0xff`, so for `constellationSize = 256` the valid
satellite index `256` is encoded (against ground station `257`) into
`9.1.0.50`, which decodes to node index `0`, not `256`. -/
theorem ip_roundtrip_counterexample :
    gsl_sat_ip 256 256 257 = (9, 1, 0, 50) ∧
    ip_to_node_index 256 (gsl_sat_ip 256 256 257) = some 0 ∧
    ip_to_node_index 256 (gsl_sat_ip 256 256 257) ≠ some 256 := by
  refine ⟨by decide, by decide, by decide⟩

/-- Claim C2 (amended): the encode/decode round-trip recovers the exact
(category, index) pair for every valid satellite index `s` and ground
index `g`, provided additionally `s ≤ 255` and
`g - constellationSize ≤ 255` (the bounds forced by the `& 0xff`
masking in the encoder).  The satellite-side GSL address and both ISL
addresses owned by `s` decode to `s`, which lies in the satellite range
`[1, constellationSize]`; the ground-side GSL address decodes to `g`,
which lies strictly above `constellationSize` (ground category). -/
theorem ip_roundtrip (cs gsCount s g : ℕ) (hs1 : 1 ≤ s) (hs : s ≤ cs)
    (hs255 : s ≤ 255) (hg1 : cs < g) (hg : g ≤ cs + gsCount)
    (hg255 : g - cs ≤ 255) :
    ip_to_node_index (cs : ℤ) (gsl_sat_ip cs s g) = some (s : ℤ) ∧
    ip_to_node_index (cs : ℤ) (gsl_gs_ip cs s g) = some (g : ℤ) ∧
    ip_to_node_index (cs : ℤ) (isl_intra_ip s) = some (s : ℤ) ∧
    ip_to_node_index (cs : ℤ) (isl_inter_ip s) = some (s : ℤ) ∧
    (1 : ℤ) ≤ (s : ℤ) ∧ (s : ℤ) ≤ (cs : ℤ) ∧ (cs : ℤ) < (g : ℤ) := by
  have hmask_s : s &&& 0xff = s := by
    have : (0xff : ℕ) = 2 ^ 8 - 1 := by norm_num
    rw [this, Nat.and_pow_two_sub_one_eq_mod, Nat.mod_eq_of_lt (by omega)]
  have hmask_g : (g - cs) &&& 0xff = g - cs := by
    have : (0xff : ℕ) = 2 ^ 8 - 1 := by norm_num
    rw [this, Nat.and_pow_two_sub_one_eq_mod, Nat.mod_eq_of_lt (by omega)]
  refine ⟨?_, ?_, ?_, ?_, by omega, by omega, by omega⟩
  · show some ((s &&& 0xff : ℕ) : ℤ) = some (s : ℤ)
    rw [hmask_s]
  · show some ((((g - cs) &&& 0xff : ℕ) : ℤ) + (cs : ℤ)) = some (g : ℤ)
    rw [hmask_g]
    congr 1
    push_cast [Nat.cast_sub (le_of_lt hg1)]
    ring
  · rw [show isl_intra_ip s = (10, ((s - 1) * 2 + 1) >>> 8, ((s - 1) * 2 + 1) &&& 0xff, 40)
      from rfl]
    rw [ip_to_node_index_isl, isl_octet_recombine]
    have hcast : (((s - 1) * 2 + 1 : ℕ) : ℤ) = ((s : ℤ) - 1) * 2 + 1 := by
      push_cast [Nat.cast_sub hs1]
      ring
    rw [hcast, Int.fdiv_eq_ediv _ (by norm_num)]
    rw [if_pos (by omega)]
    congr 1
    omega
  · rw [show isl_inter_ip s = (10, ((s - 1) * 2 + 1 + 1) >>> 8, ((s - 1) * 2 + 1 + 1) &&& 0xff, 30)
      from rfl]
    rw [ip_to_node_index_isl, isl_octet_recombine]
    have hcast : (((s - 1) * 2 + 1 + 1 : ℕ) : ℤ) = ((s : ℤ) - 1) * 2 + 1 + 1 := by
      push_cast [Nat.cast_sub hs1]
      ring
    rw [hcast, Int.fdiv_eq_ediv _ (by norm_num)]
    rw [if_pos (by omega)]
    congr 1
    omega

/-- Concrete witness for the amended C2: constellation of 4 satellites
and 2 ground stations, satellite 3 and ground station 5. -/
theorem ip_roundtrip_witness :
    ip_to_node_index 4 (gsl_sat_ip 4 3 5) = some 3 ∧
    ip_to_node_index 4 (gsl_gs_ip 4 3 5) = some 5 ∧
    ip_to_node_index 4 (isl_intra_ip 3) = some 3 ∧
    ip_to_node_index 4 (isl_inter_ip 3) = some 3 ∧
    (1 : ℤ) ≤ 3 ∧ (3 : ℤ) ≤ 4 ∧ (4 : ℤ) < 5 := by
  exact ip_roundtrip 4 2 3 5 (by decide) (by decide) (by decide) (by decide)
    (by decide) (by decide)

/-! ## Claims C3 and C4: Doppler shift -/

/-- The claim as frozen is false for every configured carrier
frequency: the constructor keeps a negative carrier frequency
(`carrier_frequency_hz or DEFAULT` only replaces `None` and `0`), and
with carrier `-14e9` an approaching satellite (radial velocity `-1`)
yields a strictly negative shift, not a strictly positive one. -/
theorem doppler_sign_counterexample :
    calculate_doppler_shift (dopplerCarrierFreq (some (-14e9))) (-1) < 0 := by
  have hcf : dopplerCarrierFreq (some (-14e9)) = -14e9 := by
    show (if (-14e9 : ℝ) = 0 then DEFAULT_CARRIER_FREQ_HZ else (-14e9 : ℝ)) = -14e9
    rw [if_neg (by norm_num)]
  rw [hcf]
  unfold calculate_doppler_shift SPEED_OF_LIGHT
  norm_num

/-- Claim C3 (amended): for every radial velocity `v` and configured
carrier frequency `f` the computed Doppler shift equals
`-(v / c) * f`; and for every positive `f` (in particular the 14 GHz
default) a negative radial velocity (approaching) yields a strictly
positive shift, a positive radial velocity (receding) a strictly
negative shift, and zero radial velocity a zero shift. -/
theorem doppler_shift_formula_and_sign (v f : ℝ) :
    calculate_doppler_shift f v = -(v / SPEED_OF_LIGHT) * f ∧
    (0 < f →
      ((v < 0 → 0 < calculate_doppler_shift f v) ∧
       (0 < v → calculate_doppler_shift f v < 0) ∧
       (v = 0 → calculate_doppler_shift f v = 0))) := by
  have hc : (0 : ℝ) < SPEED_OF_LIGHT := by norm_num [SPEED_OF_LIGHT]
  refine ⟨rfl, fun hf => ⟨fun hv => ?_, fun hv => ?_, fun hv => ?_⟩⟩
  · exact mul_pos (neg_pos.mpr (div_neg_of_neg_of_pos hv hc)) hf
  · exact mul_neg_of_neg_of_pos (neg_neg_of_pos (div_pos hv hc)) hf
  · simp [calculate_doppler_shift, hv]

/-- Concrete witness for the amended C3: at the 14 GHz default carrier
an approaching transmitter (radial velocity -1 m/s) produces a strictly
positive shift. -/
theorem doppler_shift_formula_and_sign_witness :
    0 < calculate_doppler_shift DEFAULT_CARRIER_FREQ_HZ (-1) :=
  (((doppler_shift_formula_and_sign (-1) DEFAULT_CARRIER_FREQ_HZ).2
    (by norm_num [DEFAULT_CARRIER_FREQ_HZ])).1) (by norm_num)

/-- Claim C4: whenever the satellite-to-ground distance is below the
`1e-6` km floor, the radial velocity is exactly `0` (the guard branch
returns before any division by the distance) and hence the Doppler
shift is exactly `0`, for every satellite velocity and every carrier
frequency. -/
theorem radial_velocity_degenerate_guard (satPos satVel gsPos : Vec3) (f : ℝ)
    (h : norm3 (sub3 satPos gsPos) < 1e-6) :
    calculate_radial_velocity satPos satVel gsPos = 0 ∧
    calculate_doppler_shift f (calculate_radial_velocity satPos satVel gsPos) = 0 := by
  have hz : calculate_radial_velocity satPos satVel gsPos = 0 := by
    unfold calculate_radial_velocity
    rw [if_pos h]
    norm_num
  exact ⟨hz, by rw [hz]; simp [calculate_doppler_shift]⟩

/-- Concrete witness for C4: satellite and ground station at the same
point; distance is 0 < 1e-6 and both results are exactly 0. -/
theorem radial_velocity_degenerate_guard_witness :
    calculate_radial_velocity (0, 0, 0) (1, 2, 3) (0, 0, 0) = 0 ∧
    calculate_doppler_shift DEFAULT_CARRIER_FREQ_HZ
      (calculate_radial_velocity (0, 0, 0) (1, 2, 3) (0, 0, 0)) = 0 :=
  radial_velocity_degenerate_guard (0, 0, 0) (1, 2, 3) (0, 0, 0)
    DEFAULT_CARRIER_FREQ_HZ
    (by
      have : norm3 (sub3 (0, 0, 0) (0, 0, 0)) = 0 := by
        simp [norm3, sub3, dot3]
      rw [this]
      norm_num)

/-! ## Claim C9: display formatting -/

/-- Claim C9: the unit is selected by magnitude (MHz at and above 1e6,
kHz between 1e3 and 1e6, Hz below 1e3), the value is scaled by the
chosen unit and printed with three decimals; in particular 1,234,567 Hz
formats as "1.235 MHz", 4,200 Hz as "4.200 kHz" and 42 Hz as
"42.000 Hz". -/
theorem format_doppler_shift_spec (x : ℚ) :
    ((1000000 ≤ |x| → format_doppler_shift x = fmt3 (x / 1000000) ++ " MHz") ∧
     (1000 ≤ |x| ∧ |x| < 1000000 →
        format_doppler_shift x = fmt3 (x / 1000) ++ " kHz") ∧
     (|x| < 1000 → format_doppler_shift x = fmt3 x ++ " Hz")) ∧
    (format_doppler_shift 1234567 = "1.235 MHz" ∧
     format_doppler_shift 4200 = "4.200 kHz" ∧
     format_doppler_shift 42 = "42.000 Hz") := by
  refine ⟨⟨fun h => ?_, fun h => ?_, fun h => ?_⟩, ?_, ?_, ?_⟩
  · unfold format_doppler_shift
    rw [if_pos h]
  · unfold format_doppler_shift
    rw [if_neg (not_le.mpr h.2), if_pos h.1]
  · unfold format_doppler_shift
    rw [if_neg (not_le.mpr (h.trans (by norm_num))), if_neg (not_le.mpr h)]
  · unfold format_doppler_shift
    rw [if_pos (by norm_num)]
    rw [fmt3_of_nonneg_round (1234567 / 1000000) 1235 (by norm_num)
      (by
        rw [show (1234567 / 1000000 * 1000 : ℚ) = 1234567 / 1000 by norm_num]
        exact pyRoundHalfEven_up _ 1234
          (by rw [Int.floor_eq_iff]; norm_num) (by norm_num))]
    decide
  · unfold format_doppler_shift
    rw [if_neg (by norm_num), if_pos (by norm_num)]
    rw [fmt3_of_nonneg_round (4200 / 1000) 4200 (by norm_num)
      (by
        rw [show (4200 / 1000 * 1000 : ℚ) = ((4200 : ℤ) : ℚ) by norm_num]
        exact pyRoundHalfEven_intCast 4200)]
    decide
  · unfold format_doppler_shift
    rw [if_neg (by norm_num), if_neg (by norm_num)]
    rw [fmt3_of_nonneg_round 42 42000 (by norm_num)
      (by
        rw [show (42 * 1000 : ℚ) = ((42000 : ℤ) : ℚ) by norm_num]
        exact pyRoundHalfEven_intCast 42000)]
    decide

/-- Concrete witness for C9: the MHz branch applied to 1,234,567 Hz. -/
theorem format_doppler_shift_spec_witness :
    format_doppler_shift 1234567 = fmt3 (1234567 / 1000000) ++ " MHz" :=
  (format_doppler_shift_spec 1234567).1.1 (by norm_num)

/-! ## Claim C5: access-satellite resolution -/

theorem ip_to_node_index_nonneg (cs : ℤ) (hcs : 0 ≤ cs) (ip : IPv4) (n : ℤ)
    (h : ip_to_node_index cs ip = some n) : 0 ≤ n := by
  obtain ⟨o1, o2, o3, o4⟩ := ip
  simp only [ip_to_node_index] at h
  split_ifs at h <;>
    (rw [Option.some.injEq] at h
     try rw [Int.fdiv_eq_ediv _ (by norm_num)] at h
     have h0 : (0 : ℤ) ≤ ((o2 <<< 8) ||| o3 : ℕ) := Int.natCast_nonneg _
     omega)

theorem find_access_sat_eq_findSome (cs : ℤ) (hcs : 0 ≤ cs) (l : List IPv4) :
    find_access_sat cs l = l.findSome? (satIndexOf cs) := by
  induction l with
  | nil => rfl
  | cons ip rest ih =>
    rw [List.findSome?_cons]
    cases hm : ip_to_node_index cs ip with
    | none =>
      have hs : satIndexOf cs ip = none := by
        unfold satIndexOf
        rw [hm]
      have hL : find_access_sat cs (ip :: rest) = find_access_sat cs rest := by
        simp only [find_access_sat, hm]
      rw [hL, hs]
      exact ih
    | some n =>
      have hn : 0 ≤ n := ip_to_node_index_nonneg cs hcs ip n hm
      have hs : satIndexOf cs ip =
          (if 1 ≤ n ∧ n ≤ cs then some n else none) := by
        unfold satIndexOf
        rw [hm]
      have hL : find_access_sat cs (ip :: rest) =
          (if n ≠ 0 ∧ n ≤ cs then some n else find_access_sat cs rest) := by
        simp only [find_access_sat, hm]
      rw [hL, hs]
      by_cases hcond : 1 ≤ n ∧ n ≤ cs
      · rw [if_pos hcond, if_pos (⟨by omega, hcond.2⟩ : n ≠ 0 ∧ n ≤ cs)]
      · rw [if_neg hcond,
          if_neg (fun hc => hcond ⟨by omega, (hc : n ≠ 0 ∧ n ≤ cs).2⟩)]
        exact ih

/-- Claim C5: resolution yields `(none, none)` whenever the trace
failed or returned fewer than two hops; otherwise the source access
satellite is the first hop among the first three that decodes to a
satellite index (in `[1, constellation_size]`), and the destination
access satellite is the first hop among the last three, scanned in
reverse, that decodes to a satellite index — `none` when no such hop
exists (`List.findSome?` returns `none` exactly then). -/
theorem access_sat_resolution (cs : ℤ) (l : List IPv4) (hcs : 0 ≤ cs) :
    (get_gs_access_sat_from_route cs none = (none, none)) ∧
    (l.length < 2 → get_gs_access_sat_from_route cs (some l) = (none, none)) ∧
    (2 ≤ l.length →
      get_gs_access_sat_from_route cs (some l) =
        ((l.take 3).findSome? (satIndexOf cs),
         ((l.drop (l.length - 3)).reverse).findSome? (satIndexOf cs))) := by
  refine ⟨rfl, fun h => ?_, fun h => ?_⟩
  · show (if l.length < 2 then ((none : Option ℤ), (none : Option ℤ))
      else (find_access_sat cs (l.take 3),
            find_access_sat cs ((l.drop (l.length - 3)).reverse))) = (none, none)
    rw [if_pos h]
  · show (if l.length < 2 then ((none : Option ℤ), (none : Option ℤ))
      else (find_access_sat cs (l.take 3),
            find_access_sat cs ((l.drop (l.length - 3)).reverse))) = _
    rw [if_neg (Nat.not_lt.mpr h), find_access_sat_eq_findSome cs hcs,
      find_access_sat_eq_findSome cs hcs]

/-- Concrete witness for C5: a two-hop path through satellites 2 and 1
in a 4-satellite constellation. -/
theorem access_sat_resolution_witness :
    get_gs_access_sat_from_route 4 (some [(9, 1, 2, 50), (9, 1, 1, 50)]) =
      (([(9, 1, 2, 50), (9, 1, 1, 50)].take 3).findSome? (satIndexOf 4),
       (([(9, 1, 2, 50), (9, 1, 1, 50)].drop
          ([(9, 1, 2, 50), (9, 1, 1, 50)].length - 3)).reverse).findSome?
         (satIndexOf 4)) :=
  (access_sat_resolution 4 [(9, 1, 2, 50), (9, 1, 1, 50)] (by decide)).2.2
    (by decide)

/-! ## Claim C6: RTT sampling never raises and parses the first match -/

theorem searchTime_leftmost (l g : List Char) (h : searchTime l = some g) :
    ∃ i, tryMatchAt (l.drop i) = some g ∧
      ∀ j < i, tryMatchAt (l.drop j) = none := by
  induction l with
  | nil => exact absurd h (by simp [searchTime])
  | cons c rest ih =>
    have hstep : searchTime (c :: rest) =
        (match tryMatchAt (c :: rest) with
          | some g2 => some g2
          | none => searchTime rest) := rfl
    rw [hstep] at h
    cases hm : tryMatchAt (c :: rest) with
    | some g2 =>
      rw [hm] at h
      refine ⟨0, ?_, fun j hj => absurd hj (by omega)⟩
      simpa [hm] using h
    | none =>
      rw [hm] at h
      obtain ⟨i, h1, h2⟩ := ih h
      refine ⟨i + 1, by simpa using h1, fun j hj => ?_⟩
      cases j with
      | zero => simpa using hm
      | succ j2 => simpa using h2 j2 (by omega)

/-- Claim C6: the RTT sampler returns `None` (it never raises — every
failure is caught and mapped to `None`) whenever the destination
address list is missing or empty, the probe execution failed, or the
probe output has no parseable `time=... ms` line; and whenever it
returns a value, that value is parsed from the leftmost match of the
success pattern in the probe's textual output. -/
theorem measure_rtt_spec :
    (∀ po, measure_rtt none po = none) ∧
    (∀ po, measure_rtt (some []) po = none) ∧
    (∀ il, measure_rtt il none = none) ∧
    (∀ ip rest out, searchTime out.toList = none →
        measure_rtt (some (ip :: rest)) (some out) = none) ∧
    (∀ ip rest out r, measure_rtt (some (ip :: rest)) (some out) = some r →
        ∃ i g, tryMatchAt (out.toList.drop i) = some g ∧
          (∀ j < i, tryMatchAt (out.toList.drop j) = none) ∧
          pyFloat g = some r) := by
  refine ⟨fun _ => rfl, fun _ => rfl, fun il => ?_, fun ip rest out h => ?_,
    fun ip rest out r h => ?_⟩
  · cases il with
    | none => rfl
    | some l => cases l with
      | nil => rfl
      | cons a as => rfl
  · show parse_ping_output out = none
    unfold parse_ping_output
    rw [h]
  · have hp : parse_ping_output out = some r := h
    unfold parse_ping_output at hp
    cases hs : searchTime out.toList with
    | none => rw [hs] at hp; exact absurd hp (by simp)
    | some g =>
      rw [hs] at hp
      obtain ⟨i, h1, h2⟩ := searchTime_leftmost out.toList g hs
      exact ⟨i, g, h1, h2, hp⟩

/-- Concrete witness for C6: the output `time=12 ms` parses to 12 ms,
coming from the match at position 0. -/
theorem measure_rtt_spec_witness :
    ∃ i g, tryMatchAt (("time=12 ms" : String).toList.drop i) = some g ∧
      (∀ j < i, tryMatchAt (("time=12 ms" : String).toList.drop j) = none) ∧
      pyFloat g = some 12 := by
  refine measure_rtt_spec.2.2.2.2 "9.1.1.50" [] "time=12 ms" 12 ?_
  show parse_ping_output "time=12 ms" = some 12
  unfold parse_ping_output
  rw [show searchTime ("time=12 ms" : String).toList = some ['1', '2'] from by decide]
  show pyFloat ['1', '2'] = some 12
  unfold pyFloat
  rw [if_pos (by decide)]
  rw [show (['1', '2'].takeWhile fun c => !(c == '.')) = ['1', '2'] from by decide]
  rw [show ((['1', '2'].dropWhile fun c => !(c == '.')).drop 1) = ([] : List Char)
    from by decide]
  show some ((digitsVal ['1', '2'] : ℚ) +
      (digitsVal ([] : List Char) : ℚ) / (10 : ℚ) ^ ([] : List Char).length) =
    some 12
  rw [show digitsVal ['1', '2'] = 12 from by decide,
    show digitsVal ([] : List Char) = 0 from by decide]
  norm_num

/-! ## Claim C8: session lifecycle -/

/-- Claim C8: calling `start` while the session is running, or `stop`
while it is idle (including a `stop` before any `start`), is a total
no-op that only reports a warning and leaves every session field
unchanged; and calling `start` twice in a row launches exactly one
background task — the second call warns, launches nothing and changes
nothing. -/
theorem session_lifecycle :
    (∀ (s : SessionState) (now : ℚ) (cs : ℕ) (pairs : Option (List PairKey))
        (ts ld : String), s.running = true →
      monitor_start s now cs pairs ts ld =
        { state := s, warned := true, launched := false }) ∧
    (∀ s : SessionState, s.running = false → monitor_stop s = (s, true)) ∧
    (∀ (s : SessionState) (now1 now2 : ℚ) (cs : ℕ)
        (pairs : Option (List PairKey)) (ts ld : String), s.running = false →
      (monitor_start s now1 cs pairs ts ld).launched = true ∧
      (monitor_start s now1 cs pairs ts ld).state.threads_launched =
        s.threads_launched + 1 ∧
      monitor_start (monitor_start s now1 cs pairs ts ld).state now2 cs pairs ts ld =
        { state := (monitor_start s now1 cs pairs ts ld).state,
          warned := true, launched := false }) := by
  have hbusy : ∀ (s : SessionState) (now : ℚ) (cs : ℕ)
      (pairs : Option (List PairKey)) (ts ld : String), s.running = true →
      monitor_start s now cs pairs ts ld =
        { state := s, warned := true, launched := false } := by
    intro s now cs pairs ts ld h
    unfold monitor_start
    rw [if_pos h]
  refine ⟨hbusy, fun s h => ?_, fun s now1 now2 cs pairs ts ld h => ?_⟩
  · unfold monitor_stop
    rw [h]
    rfl
  · have hne : ¬ s.running = true := by
      rw [h]
      exact Bool.false_ne_true
    have h1 : (monitor_start s now1 cs pairs ts ld).launched = true := by
      unfold monitor_start
      rw [if_neg hne]
    have h2 : (monitor_start s now1 cs pairs ts ld).state.threads_launched =
        s.threads_launched + 1 := by
      unfold monitor_start
      rw [if_neg hne]
    have hrun : (monitor_start s now1 cs pairs ts ld).state.running = true := by
      unfold monitor_start
      rw [if_neg hne]
    exact ⟨h1, h2, hbusy _ now2 cs pairs ts ld hrun⟩

/-- Concrete witness for C8: a fresh idle session; `stop` is a warning
no-op, and a double `start` launches exactly one thread with the second
call warning and changing nothing. -/
theorem session_lifecycle_witness :
    (monitor_stop { running := false, start_wall_time := none, log_files_dict := [], threads_launched := 0 } =
      ({ running := false, start_wall_time := none, log_files_dict := [], threads_launched := 0 }, true)) ∧
    ((monitor_start { running := false, start_wall_time := none, log_files_dict := [], threads_launched := 0 } 0 4 none "t" ".").launched = true) ∧
    ((monitor_start { running := false, start_wall_time := none, log_files_dict := [], threads_launched := 0 } 0 4 none "t" ".").state.threads_launched = 0 + 1) ∧
    (monitor_start (monitor_start { running := false, start_wall_time := none, log_files_dict := [], threads_launched := 0 } 0 4 none "t" ".").state 0 4 none "t" "." =
      { state := (monitor_start { running := false, start_wall_time := none, log_files_dict := [], threads_launched := 0 } 0 4 none "t" ".").state,
        warned := true, launched := false }) := by
  have hidle : ({ running := false, start_wall_time := none, log_files_dict := [], threads_launched := 0 } : SessionState).running = false := rfl
  have h2 := session_lifecycle.2.1
    { running := false, start_wall_time := none, log_files_dict := [], threads_launched := 0 } hidle
  have h3 := session_lifecycle.2.2
    { running := false, start_wall_time := none, log_files_dict := [], threads_launched := 0 } 0 0 4 none "t" "." hidle
  exact ⟨h2, h3.1, h3.2.1, h3.2.2⟩
